import Mathlib

/-!
Shallow embedding of TiKV's transaction-status and data-constraint actions:
`src/storage/txn/actions/check_txn_status.rs` and
`src/storage/txn/actions/check_data_constraint.rs`.

Machine integers (`u64` timestamps and TTLs) are modelled as `Nat` with
explicit `% 2^64` where the Rust arithmetic can wrap.  External collaborators
(the `txn_types` crate, the Transaction Context `MvccTxn` and the Snapshot
Reader, which are declared outside the two source files) are modelled from the
specification: snapshot lookups are oracle functions fixed at construction of
the context, and mutations are recorded as an explicit effect list.
-/

namespace Tikv

/-- The size of the `u64` value space used for timestamps and TTLs. -/
def U64 : Nat := 2 ^ 64

namespace TimeStamp

/-- Modelled from the spec: the max sentinel of a `txn_types::TimeStamp`
(`u64::MAX`), "effectively infinite", used for autocommit point reads. -/
def maxTs : Nat := U64 - 1

/-- Modelled from the spec: the physical millisecond component of a
`txn_types::TimeStamp`; the timestamp is the physical component shifted left
past an 18-bit logical suffix. -/
def physical (t : Nat) : Nat := t >>> 18

/-- Modelled from the spec: whether a timestamp is the max sentinel
(`TimeStamp::is_max`). -/
def is_max (t : Nat) : Bool := t == maxTs

/-- Modelled from the spec: `TimeStamp::next` moves up by the smallest
representable unit (`u64` wrapping). -/
def next (t : Nat) : Nat := (t + 1) % U64

/-- Modelled from the spec: `TimeStamp::prev` moves down by the smallest
representable unit (`u64` wrapping). -/
def prev (t : Nat) : Nat := (t + (U64 - 1)) % U64

/-- Modelled from the spec: `TimeStamp::is_zero`. -/
def is_zero (t : Nat) : Bool := t == 0

end TimeStamp

/-- Modelled from the spec: a `txn_types::Key` is an opaque byte string with an
encoded (internal) form and a raw (user-visible) form; recovering the raw form
can fail with a codec error on a malformed key. -/
structure Key where
  encoded : List Nat
  rawForm : Option (List Nat)
deriving DecidableEq

/-- Modelled from the spec: the kind of a `txn_types::Write` record. -/
inductive WriteType
  | Put
  | Delete
  | Lock
  | Rollback
deriving DecidableEq

/-- Modelled from the spec: the kind of a `txn_types::Lock`. -/
inductive LockType
  | Put
  | Delete
  | Lock
  | Pessimistic
deriving DecidableEq

/-- Modelled from the spec: a `txn_types::Write` record — an immutable fact in
a key's version history, carrying its write kind, the start timestamp that
produced it and an optional inline payload. -/
structure Write where
  write_type : WriteType
  start_ts : Nat
  short_value : Option (List Nat)
deriving DecidableEq

/-- Modelled from the spec: a `txn_types::Lock` record with the fields the two
source files consume: kind, start timestamp `ts`, TTL, `min_commit_ts`,
`for_update_ts` (non-zero marks a pessimistic transaction) and the
async-commit flag. -/
structure Lock where
  lock_type : LockType
  ts : Nat
  ttl : Nat
  min_commit_ts : Nat
  for_update_ts : Nat
  use_async_commit : Bool
deriving DecidableEq

/-- The error kinds surfaced by this core (`mvcc::ErrorInner`): the insert-only
constraint violation, the missing-transaction error, and opaque codec/storage
failures propagated from collaborators. -/
inductive MvccError
  | AlreadyExist (key : List Nat)
  | TxnNotFound (start_ts : Nat) (key : List Nat)
  | Codec
  | Storage
deriving DecidableEq

/-- Modelled from the spec: the raw form of a key (`Key::to_raw`), failing with
a codec error on a malformed key. -/
def Key.to_raw (k : Key) : Except MvccError (List Nat) :=
  match k.rawForm with
  | some raw => Except.ok raw
  | none => Except.error MvccError.Codec

/-- Modelled from the spec: `Key::into_raw`, same conversion as `Key.to_raw`. -/
def Key.into_raw (k : Key) : Except MvccError (List Nat) := k.to_raw

/-- The output-only transaction status (`storage::TxnStatus`). -/
inductive TxnStatus
  | RolledBack
  | TtlExpire
  | LockNotExist
  | LockNotExistDoNothing
  | Committed (commit_ts : Nat)
  | Uncommitted (lock : Lock) (min_commit_ts_pushed : Bool)
  | PessimisticRollBack
deriving DecidableEq

/-- Modelled from the spec: the record of a lock released by the Transaction
Context (`mvcc::ReleasedLock`). -/
structure ReleasedLock where
  key : Key
  pessimistic : Bool
deriving DecidableEq

/-- Modelled from the spec: `MissingLockAction` — why no lock was found, chosen
by the caller: plain rollback, protected rollback, or demand an error. -/
inductive MissingLockAction
  | Rollback
  | ProtectedRollback
  | ReturnError
deriving DecidableEq

/-- Modelled from the spec: the result of the Snapshot Reader's commit-record
lookup (`TxnCommitRecord`): a single matching record, an overlapped-rollback
marker, or none (with an optional overlapped write used to avoid clobbering). -/
inductive TxnCommitRecord
  | SingleRecord (commit_ts : Nat) (write : Write)
  | OverlappedRollback (commit_ts : Nat)
  | None (overlapped_write : Option Write)
deriving DecidableEq

/-- Modelled from the spec: a mutation enqueued into the Transaction Context.
Mutations are only recorded here; an external committer applies them later. -/
inductive Effect
  | put_lock (key : Key) (lock : Lock)
  | unlock_key (key : Key) (pessimistic : Bool)
  | put_write (key : Key) (ts : Nat) (write : Write)
  | collapse_prev_rollback (key : Key)
  | mark_rollback_on_mismatching_lock (key : Key) (lock : Lock) (isProtected : Bool)
deriving DecidableEq

/-- Modelled from the spec: the Transaction Context (`mvcc::MvccTxn`).  It
accumulates pending mutations for one transaction attempt and exposes
key-existence and commit-record lookups against the snapshot; the lookups are
oracle functions fixed at construction. -/
structure MvccTxn where
  start_ts : Nat
  collapse_rollback : Bool
  get_txn_commit_record : Key → Nat → Except MvccError TxnCommitRecord
  key_exist : Key → Nat → Except MvccError Bool
  effects : List Effect

/-- Append one mutation to the Transaction Context's pending-effect list. -/
def MvccTxn.push (txn : MvccTxn) (e : Effect) : MvccTxn :=
  { txn with effects := txn.effects ++ [e] }

/-- Modelled from the spec: `MvccTxn::put_lock` enqueues insertion of a lock. -/
def MvccTxn.put_lock (txn : MvccTxn) (key : Key) (lock : Lock) : MvccTxn :=
  txn.push (Effect.put_lock key lock)

/-- Modelled from the spec: `MvccTxn::unlock_key` enqueues removal of the key's
lock and returns the released lock. -/
def MvccTxn.unlock_key (txn : MvccTxn) (key : Key) (pessimistic : Bool) :
    MvccTxn × Option ReleasedLock :=
  (txn.push (Effect.unlock_key key pessimistic), some ⟨key, pessimistic⟩)

/-- Modelled from the spec: `MvccTxn::put_write` enqueues a write record at the
given commit timestamp. -/
def MvccTxn.put_write (txn : MvccTxn) (key : Key) (ts : Nat) (write : Write) : MvccTxn :=
  txn.push (Effect.put_write key ts write)

/-- Modelled from the spec: `MvccTxn::check_write_and_rollback_lock` writes a
protective rollback record for the transaction (consulting prior write history,
which is outside this core) and releases the lock. -/
def MvccTxn.check_write_and_rollback_lock (txn : MvccTxn) (key : Key) (lock : Lock)
    (pessimistic : Bool) : MvccTxn × Option ReleasedLock :=
  ((txn.put_write key lock.ts
      { write_type := WriteType.Rollback, start_ts := lock.ts, short_value := none }).push
     (Effect.unlock_key key pessimistic),
   some ⟨key, pessimistic⟩)

/-- Modelled from the spec: `MvccTxn::collapse_prev_rollback` collapses a
previous rollback record at this key (space optimization). -/
def MvccTxn.collapse_prev_rollback (txn : MvccTxn) (key : Key) : MvccTxn :=
  txn.push (Effect.collapse_prev_rollback key)

/-- Modelled from the spec: `MvccTxn::mark_rollback_on_mismatching_lock` marks
a mismatching lock for protected/unprotected rollback. -/
def MvccTxn.mark_rollback_on_mismatching_lock (txn : MvccTxn) (key : Key) (lock : Lock)
    (isProtected : Bool) : MvccTxn :=
  txn.push (Effect.mark_rollback_on_mismatching_lock key lock isProtected)

/-- Modelled from the spec: `MissingLockAction::construct_write` — the rollback
write to enqueue, a function of the action kind, the transaction's start
timestamp and any overlapped write; `ReturnError` never reaches this point. -/
def MissingLockAction.construct_write (action : MissingLockAction) (ts : Nat)
    (overlapped_write : Option Write) : Option Write :=
  match action, overlapped_write with
  | MissingLockAction.ReturnError, _ => none
  | _, _ =>
      some { write_type := WriteType.Rollback, start_ts := ts, short_value := none }

/-- `check_txn_status_lock_exists` from
`src/storage/txn/actions/check_txn_status.rs`: resolve the status of a
transaction whose primary lock was observed.  Returns the updated Transaction
Context together with the status and any released lock.  Metrics and logging
in the source are omitted; `u64` arithmetic wraps modulo `2^64`. -/
def check_txn_status_lock_exists (txn : MvccTxn) (primary_key : Key) (lock : Lock)
    (current_ts caller_start_ts : Nat) (force_sync_commit resolving_pessimistic_lock : Bool) :
    MvccTxn × Except MvccError (TxnStatus × Option ReleasedLock) :=
  if lock.use_async_commit = true ∧ force_sync_commit = false then
    (txn, Except.ok (TxnStatus.Uncommitted lock false, none))
  else
    let is_pessimistic_txn : Bool := !TimeStamp.is_zero lock.for_update_ts
    if (TimeStamp.physical lock.ts + lock.ttl) % U64 < TimeStamp.physical current_ts then
      if resolving_pessimistic_lock = true ∧ lock.lock_type = LockType.Pessimistic then
        let r := txn.unlock_key primary_key is_pessimistic_txn
        (r.1, Except.ok (TxnStatus.PessimisticRollBack, r.2))
      else
        let r := txn.check_write_and_rollback_lock primary_key lock is_pessimistic_txn
        (r.1, Except.ok (TxnStatus.TtlExpire, r.2))
    else
      if ¬TimeStamp.is_zero lock.min_commit_ts = true ∧
          ¬TimeStamp.is_max caller_start_ts = true ∧
          lock.min_commit_ts ≤ caller_start_ts then
        let m := TimeStamp.next caller_start_ts
        let m := if m < current_ts then current_ts else m
        let lock' := { lock with min_commit_ts := m }
        (txn.put_lock primary_key lock', Except.ok (TxnStatus.Uncommitted lock' true, none))
      else
        (txn, Except.ok (TxnStatus.Uncommitted lock (TimeStamp.is_max caller_start_ts), none))

/-- `check_txn_status_missing_lock` from
`src/storage/txn/actions/check_txn_status.rs`: resolve the status of a
transaction whose primary lock was not found.  Returns the updated Transaction
Context together with the status or error; metrics are omitted. -/
def check_txn_status_missing_lock (txn : MvccTxn) (primary_key : Key)
    (mismatch_lock : Option Lock) (action : MissingLockAction)
    (resolving_pessimistic_lock : Bool) : MvccTxn × Except MvccError TxnStatus :=
  match txn.get_txn_commit_record primary_key txn.start_ts with
  | Except.error e => (txn, Except.error e)
  | Except.ok (TxnCommitRecord.SingleRecord commit_ts write) =>
      if write.write_type = WriteType.Rollback then
        (txn, Except.ok TxnStatus.RolledBack)
      else
        (txn, Except.ok (TxnStatus.Committed commit_ts))
  | Except.ok (TxnCommitRecord.OverlappedRollback _) =>
      (txn, Except.ok TxnStatus.RolledBack)
  | Except.ok (TxnCommitRecord.None overlapped_write) =>
      if action = MissingLockAction.ReturnError then
        match primary_key.into_raw with
        | Except.ok raw => (txn, Except.error (MvccError.TxnNotFound txn.start_ts raw))
        | Except.error e => (txn, Except.error e)
      else if resolving_pessimistic_lock = true then
        (txn, Except.ok TxnStatus.LockNotExistDoNothing)
      else
        let ts := txn.start_ts
        let txn := if txn.collapse_rollback then txn.collapse_prev_rollback primary_key else txn
        let txn :=
          match mismatch_lock, overlapped_write with
          | some l, none =>
              txn.mark_rollback_on_mismatching_lock primary_key l
                (decide (action = MissingLockAction.ProtectedRollback))
          | _, _ => txn
        let txn :=
          match action.construct_write ts overlapped_write with
          | some w => txn.put_write primary_key ts w
          | none => txn
        (txn, Except.ok TxnStatus.LockNotExist)

/-- `check_data_constraint` from
`src/storage/txn/actions/check_data_constraint.rs`: checks the existence of
the key according to `should_not_exist`; if the key exists, returns an
`AlreadyExist` error carrying the raw key. -/
def check_data_constraint (txn : MvccTxn) (should_not_exist : Bool) (write : Write)
    (write_commit_ts : Nat) (key : Key) : Except MvccError Unit :=
  if should_not_exist = false ∨ write.write_type = WriteType.Delete then
    Except.ok ()
  else
    match (if write.write_type = WriteType.Put then Except.ok true
           else txn.key_exist key (TimeStamp.prev write_commit_ts) :
            Except MvccError Bool) with
    | Except.error e => Except.error e
    | Except.ok true =>
        match key.to_raw with
        | Except.ok raw => Except.error (MvccError.AlreadyExist raw)
        | Except.error e => Except.error e
    | Except.ok false => Except.ok ()

/-! Concrete fixtures used by the witness theorems. -/

/-- A Transaction Context whose commit-record lookup finds nothing and whose
key-existence lookup reports absence. -/
def txnW : MvccTxn :=
  { start_ts := 7, collapse_rollback := false,
    get_txn_commit_record := fun _ _ => Except.ok (TxnCommitRecord.None none),
    key_exist := fun _ _ => Except.ok false,
    effects := [] }

/-- A well-formed key whose raw form is `[1]`. -/
def keyW : Key := { encoded := [0], rawForm := some [1] }

/-- A live optimistic lock participating in large-transaction tracking. -/
def lockLive : Lock :=
  { lock_type := LockType.Put, ts := 0, ttl := 0, min_commit_ts := 5,
    for_update_ts := 0, use_async_commit := false }

/-- A lock with `min_commit_ts = 0`. -/
def lockZero : Lock :=
  { lock_type := LockType.Put, ts := 0, ttl := 0, min_commit_ts := 0,
    for_update_ts := 0, use_async_commit := false }

/-- An async-commit lock. -/
def lockAsync : Lock :=
  { lock_type := LockType.Put, ts := 0, ttl := 0, min_commit_ts := 0,
    for_update_ts := 0, use_async_commit := true }

/-- A pessimistic lock of a pessimistic transaction. -/
def lockPess : Lock :=
  { lock_type := LockType.Pessimistic, ts := 0, ttl := 0, min_commit_ts := 0,
    for_update_ts := 1, use_async_commit := false }

/-- A `Put` write record. -/
def writePut : Write := { write_type := WriteType.Put, start_ts := 7, short_value := none }

/-! Helper lemmas. -/

/-- The source's "set then raise to `current_ts`" idiom computes a maximum. -/
theorem ite_lt_eq_max (a b : Nat) : (if a < b then b else a) = max a b := by
  rcases Nat.lt_or_ge a b with h | h
  · simp [h, Nat.max_eq_right (Nat.le_of_lt h)]
  · simp [Nat.not_lt.mpr h, Nat.max_eq_left h]

/-- On a live (non-expired) lock that is not exempted by the async-commit
guard, `check_txn_status_lock_exists` reduces to the min-commit-ts forwarding
step. -/
theorem check_txn_status_lock_exists_live (txn : MvccTxn) (primary_key : Key) (lock : Lock)
    (current_ts caller_start_ts : Nat) (fsc rpl : Bool)
    (hasync : ¬(lock.use_async_commit = true ∧ fsc = false))
    (hlive : ¬((TimeStamp.physical lock.ts + lock.ttl) % U64 < TimeStamp.physical current_ts)) :
    check_txn_status_lock_exists txn primary_key lock current_ts caller_start_ts fsc rpl
      = if lock.min_commit_ts ≠ 0 ∧ caller_start_ts ≠ TimeStamp.maxTs ∧
            lock.min_commit_ts ≤ caller_start_ts then
          (txn.put_lock primary_key
             { lock with min_commit_ts := max (TimeStamp.next caller_start_ts) current_ts },
           Except.ok (TxnStatus.Uncommitted
             { lock with min_commit_ts := max (TimeStamp.next caller_start_ts) current_ts } true,
             none))
        else
          (txn, Except.ok (TxnStatus.Uncommitted lock (TimeStamp.is_max caller_start_ts),
            none)) := by
  have hz : (¬TimeStamp.is_zero lock.min_commit_ts = true ∧
      ¬TimeStamp.is_max caller_start_ts = true ∧ lock.min_commit_ts ≤ caller_start_ts)
      ↔ (lock.min_commit_ts ≠ 0 ∧ caller_start_ts ≠ TimeStamp.maxTs ∧
         lock.min_commit_ts ≤ caller_start_ts) := by
    simp [TimeStamp.is_zero, TimeStamp.is_max]
  simp only [check_txn_status_lock_exists]
  rw [if_neg hasync, if_neg hlive, ite_lt_eq_max]
  exact if_congr hz rfl rfl

/-- C1: for every non-expired, non-async-commit (or force_sync_commit) lock,
`check_txn_status_lock_exists` forwards the lock's `min_commit_ts` to
`max(caller_start_ts.next(), current_ts)` and persists the updated lock via
`put_lock`, returning `Uncommitted(updated lock, min_commit_ts_pushed = true)`,
if and only if `lock.min_commit_ts ≠ 0`, `caller_start_ts` is not the max
sentinel, and `caller_start_ts ≥ lock.min_commit_ts`. -/
theorem c1_min_commit_ts_forward_iff (txn : MvccTxn) (primary_key : Key) (lock : Lock)
    (current_ts caller_start_ts : Nat) (fsc rpl : Bool)
    (hasync : ¬(lock.use_async_commit = true ∧ fsc = false))
    (hlive : ¬((TimeStamp.physical lock.ts + lock.ttl) % U64 < TimeStamp.physical current_ts)) :
    (check_txn_status_lock_exists txn primary_key lock current_ts caller_start_ts fsc rpl
       = (txn.put_lock primary_key
            { lock with min_commit_ts := max (TimeStamp.next caller_start_ts) current_ts },
          Except.ok (TxnStatus.Uncommitted
            { lock with min_commit_ts := max (TimeStamp.next caller_start_ts) current_ts } true,
            none)))
    ↔ (lock.min_commit_ts ≠ 0 ∧ caller_start_ts ≠ TimeStamp.maxTs ∧
        lock.min_commit_ts ≤ caller_start_ts) := by
  rw [check_txn_status_lock_exists_live txn primary_key lock current_ts caller_start_ts fsc rpl
    hasync hlive]
  by_cases hcond : lock.min_commit_ts ≠ 0 ∧ caller_start_ts ≠ TimeStamp.maxTs ∧
      lock.min_commit_ts ≤ caller_start_ts
  · simp [hcond]
  · simp only [if_neg hcond, hcond, iff_false]
    intro h
    have h1 := congrArg (fun p => p.1.effects.length) h
    simp [MvccTxn.put_lock, MvccTxn.push] at h1

/-- Witness for C1 at a concrete live lock: `min_commit_ts = 5`,
`caller_start_ts = 10`, `current_ts = 3`; the lock is pushed to
`max(11, 3) = 11`. -/
theorem c1_witness :
    check_txn_status_lock_exists txnW keyW lockLive 3 10 false false
      = (txnW.put_lock keyW { lockLive with min_commit_ts := 11 },
         Except.ok (TxnStatus.Uncommitted { lockLive with min_commit_ts := 11 } true, none)) := by
  have h := (c1_min_commit_ts_forward_iff txnW keyW lockLive 3 10 false false
    (by decide) (by decide)).mpr ⟨by decide, by decide, by decide⟩
  have hn : max (TimeStamp.next 10) 3 = 11 := by decide
  rw [hn] at h
  exact h

/-- C2: for every lock with `use_async_commit = true` and
`force_sync_commit = false`, `check_txn_status_lock_exists` returns
`Uncommitted(lock, min_commit_ts_pushed = false)` with no released lock and an
unchanged Transaction Context (no mutation enqueued), regardless of every
other input — in particular even when the lock's TTL has already expired. -/
theorem c2_async_commit_guard (txn : MvccTxn) (primary_key : Key) (lock : Lock)
    (current_ts caller_start_ts : Nat) (rpl : Bool)
    (huac : lock.use_async_commit = true) :
    check_txn_status_lock_exists txn primary_key lock current_ts caller_start_ts false rpl
      = (txn, Except.ok (TxnStatus.Uncommitted lock false, none)) := by
  simp [check_txn_status_lock_exists, huac]

/-- Witness for C2 at a concrete async-commit lock whose TTL is already
expired (`ts = 0`, `ttl = 0`, `current_ts = 2^18`). -/
theorem c2_witness :
    check_txn_status_lock_exists txnW keyW lockAsync (2 ^ 18) 0 false false
      = (txnW, Except.ok (TxnStatus.Uncommitted lockAsync false, none)) :=
  c2_async_commit_guard txnW keyW lockAsync (2 ^ 18) 0 false rfl

/-- C3: for every expired lock not exempted by the async-commit guard, if
`resolving_pessimistic_lock` is true and the lock kind is `Pessimistic`,
`check_txn_status_lock_exists` releases the primary key's lock via
`unlock_key` (the only mutation enqueued — no rollback record is written) and
returns `PessimisticRollBack` with the released lock. -/
theorem c3_expired_pessimistic_rollback (txn : MvccTxn) (primary_key : Key) (lock : Lock)
    (current_ts caller_start_ts : Nat) (fsc : Bool)
    (hasync : ¬(lock.use_async_commit = true ∧ fsc = false))
    (hexp : (TimeStamp.physical lock.ts + lock.ttl) % U64 < TimeStamp.physical current_ts)
    (hpess : lock.lock_type = LockType.Pessimistic) :
    check_txn_status_lock_exists txn primary_key lock current_ts caller_start_ts fsc true
      = ({ txn with effects := txn.effects ++
             [Effect.unlock_key primary_key (!TimeStamp.is_zero lock.for_update_ts)] },
         Except.ok (TxnStatus.PessimisticRollBack,
           some ⟨primary_key, !TimeStamp.is_zero lock.for_update_ts⟩)) := by
  simp [check_txn_status_lock_exists, MvccTxn.unlock_key, MvccTxn.push, hasync, hexp, hpess]

/-- Witness for C3 at a concrete expired pessimistic lock. -/
theorem c3_witness :
    check_txn_status_lock_exists txnW keyW lockPess (2 ^ 18) 0 false true
      = ({ txnW with effects := [Effect.unlock_key keyW true] },
         Except.ok (TxnStatus.PessimisticRollBack, some ⟨keyW, true⟩)) := by
  have h := c3_expired_pessimistic_rollback txnW keyW lockPess (2 ^ 18) 0 false
    (by decide) (by decide) rfl
  simpa [txnW, lockPess, TimeStamp.is_zero] using h

/-- C4: for every expired lock not exempted by the async-commit guard, when not
both `resolving_pessimistic_lock` and lock kind `Pessimistic`,
`check_txn_status_lock_exists` writes a protective rollback record and
releases the lock (via `check_write_and_rollback_lock`) and returns
`TtlExpire` with the released lock; the explicit effect list shows that no
`put_lock` occurs, so no min-commit-ts forwarding happens on this expiry
branch (nor, by C3's effect list, on the other). -/
theorem c4_expired_ttl_rollback (txn : MvccTxn) (primary_key : Key) (lock : Lock)
    (current_ts caller_start_ts : Nat) (fsc rpl : Bool)
    (hasync : ¬(lock.use_async_commit = true ∧ fsc = false))
    (hexp : (TimeStamp.physical lock.ts + lock.ttl) % U64 < TimeStamp.physical current_ts)
    (hnp : ¬(rpl = true ∧ lock.lock_type = LockType.Pessimistic)) :
    check_txn_status_lock_exists txn primary_key lock current_ts caller_start_ts fsc rpl
      = ({ txn with effects := txn.effects ++
             [Effect.put_write primary_key lock.ts
                { write_type := WriteType.Rollback, start_ts := lock.ts, short_value := none },
              Effect.unlock_key primary_key (!TimeStamp.is_zero lock.for_update_ts)] },
         Except.ok (TxnStatus.TtlExpire,
           some ⟨primary_key, !TimeStamp.is_zero lock.for_update_ts⟩)) := by
  simp [check_txn_status_lock_exists, MvccTxn.check_write_and_rollback_lock,
    MvccTxn.put_write, MvccTxn.push, hasync, hexp, hnp]

/-- Witness for C4 at a concrete expired optimistic lock. -/
theorem c4_witness :
    check_txn_status_lock_exists txnW keyW lockZero (2 ^ 18) 0 false false
      = ({ txnW with effects :=
             [Effect.put_write keyW 0
                { write_type := WriteType.Rollback, start_ts := 0, short_value := none },
              Effect.unlock_key keyW false] },
         Except.ok (TxnStatus.TtlExpire, some ⟨keyW, false⟩)) := by
  have h := c4_expired_ttl_rollback txnW keyW lockZero (2 ^ 18) 0 false false
    (by decide) (by decide) (by decide)
  simpa [txnW, lockZero, TimeStamp.is_zero] using h

/-- C9: for every non-expired, non-async-exempted lock, when `caller_start_ts`
is the max sentinel, `check_txn_status_lock_exists` returns `Uncommitted` with
`min_commit_ts_pushed = true` while the Transaction Context and the stored
lock are unchanged: no `put_lock` is enqueued and the lock's `min_commit_ts`
is not modified. -/
theorem c9_caller_max_reports_pushed (txn : MvccTxn) (primary_key : Key) (lock : Lock)
    (current_ts caller_start_ts : Nat) (fsc rpl : Bool)
    (hasync : ¬(lock.use_async_commit = true ∧ fsc = false))
    (hlive : ¬((TimeStamp.physical lock.ts + lock.ttl) % U64 < TimeStamp.physical current_ts))
    (hmax : caller_start_ts = TimeStamp.maxTs) :
    check_txn_status_lock_exists txn primary_key lock current_ts caller_start_ts fsc rpl
      = (txn, Except.ok (TxnStatus.Uncommitted lock true, none)) := by
  rw [check_txn_status_lock_exists_live txn primary_key lock current_ts caller_start_ts fsc rpl
    hasync hlive]
  rw [if_neg (by simp [hmax])]
  simp [hmax, TimeStamp.is_max]

/-- Witness for C9 at a concrete live lock probed with the max sentinel. -/
theorem c9_witness :
    check_txn_status_lock_exists txnW keyW lockLive 3 TimeStamp.maxTs false false
      = (txnW, Except.ok (TxnStatus.Uncommitted lockLive true, none)) :=
  c9_caller_max_reports_pushed txnW keyW lockLive 3 TimeStamp.maxTs false false
    (by decide) (by decide) rfl

/-- C10: the TTL expiry test is a strict inequality: when
`lock.ts.physical() + lock.ttl` is exactly equal to `current_ts.physical()`,
a non-async-exempted lock is considered live and the call proceeds to the
min-commit-ts forwarding step (returning `Uncommitted` with no released lock
and no rollback or unlock effect) instead of rolling back or releasing
anything. -/
theorem c10_ttl_equality_is_live (txn : MvccTxn) (primary_key : Key) (lock : Lock)
    (current_ts caller_start_ts : Nat) (fsc rpl : Bool)
    (hasync : ¬(lock.use_async_commit = true ∧ fsc = false))
    (hcur : current_ts < U64)
    (heq : TimeStamp.physical lock.ts + lock.ttl = TimeStamp.physical current_ts) :
    check_txn_status_lock_exists txn primary_key lock current_ts caller_start_ts fsc rpl
      = if lock.min_commit_ts ≠ 0 ∧ caller_start_ts ≠ TimeStamp.maxTs ∧
            lock.min_commit_ts ≤ caller_start_ts then
          (txn.put_lock primary_key
             { lock with min_commit_ts := max (TimeStamp.next caller_start_ts) current_ts },
           Except.ok (TxnStatus.Uncommitted
             { lock with min_commit_ts := max (TimeStamp.next caller_start_ts) current_ts } true,
             none))
        else
          (txn, Except.ok (TxnStatus.Uncommitted lock (TimeStamp.is_max caller_start_ts),
            none)) := by
  have hphys : TimeStamp.physical current_ts < U64 := by
    have hle : TimeStamp.physical current_ts ≤ current_ts := by
      simp only [TimeStamp.physical, Nat.shiftRight_eq_div_pow]
      exact Nat.div_le_self _ _
    exact Nat.lt_of_le_of_lt hle hcur
  have hlive : ¬((TimeStamp.physical lock.ts + lock.ttl) % U64
      < TimeStamp.physical current_ts) := by
    rw [heq, Nat.mod_eq_of_lt hphys]
    exact Nat.lt_irrefl _
  exact check_txn_status_lock_exists_live txn primary_key lock current_ts caller_start_ts fsc rpl
    hasync hlive

/-- Witness for C10 at a concrete lock whose TTL boundary exactly equals the
current physical time. -/
theorem c10_witness :
    check_txn_status_lock_exists txnW keyW lockZero 0 0 false false
      = (txnW, Except.ok (TxnStatus.Uncommitted lockZero false, none)) := by
  have h := c10_ttl_equality_is_live txnW keyW lockZero 0 0 false false
    (by decide) (by decide) rfl
  have hm : TimeStamp.is_max 0 = false := rfl
  simpa [lockZero, hm] using h

/-- C5: for every invocation of `check_txn_status_missing_lock` where the
Snapshot Reader's commit-record lookup yields a single record, the result is
`RolledBack` if that record's write kind is `Rollback` and
`Committed(commit_ts)` for every other write kind; when the lookup yields an
overlapped-rollback marker, the result is `RolledBack`.  In both cases the
Transaction Context is unchanged. -/
theorem c5_missing_lock_commit_record (txn : MvccTxn) (primary_key : Key)
    (mismatch_lock : Option Lock) (action : MissingLockAction) (rpl : Bool) :
    (∀ commit_ts write,
       txn.get_txn_commit_record primary_key txn.start_ts
         = Except.ok (TxnCommitRecord.SingleRecord commit_ts write) →
       check_txn_status_missing_lock txn primary_key mismatch_lock action rpl
         = (txn, Except.ok (if write.write_type = WriteType.Rollback then TxnStatus.RolledBack
             else TxnStatus.Committed commit_ts))) ∧
    (∀ commit_ts,
       txn.get_txn_commit_record primary_key txn.start_ts
         = Except.ok (TxnCommitRecord.OverlappedRollback commit_ts) →
       check_txn_status_missing_lock txn primary_key mismatch_lock action rpl
         = (txn, Except.ok TxnStatus.RolledBack)) := by
  constructor
  · intro commit_ts write h
    simp only [check_txn_status_missing_lock, h]
    by_cases hw : write.write_type = WriteType.Rollback <;> simp [hw]
  · intro commit_ts h
    simp only [check_txn_status_missing_lock, h]

/-- Witness for C5 at a concrete context whose lookup finds a committed `Put`
record at `commit_ts = 9`. -/
theorem c5_witness :
    check_txn_status_missing_lock
        { txnW with get_txn_commit_record :=
            fun _ _ => Except.ok (TxnCommitRecord.SingleRecord 9 writePut) }
        keyW none MissingLockAction.Rollback false
      = ({ txnW with get_txn_commit_record :=
             fun _ _ => Except.ok (TxnCommitRecord.SingleRecord 9 writePut) },
         Except.ok (TxnStatus.Committed 9)) := by
  have h := (c5_missing_lock_commit_record
    { txnW with get_txn_commit_record :=
        fun _ _ => Except.ok (TxnCommitRecord.SingleRecord 9 writePut) }
    keyW none MissingLockAction.Rollback false).1 9 writePut rfl
  simpa [writePut] using h

/-- C6: for every invocation of `check_txn_status_missing_lock` where no
commit record is found and `action = ReturnError`, the call fails with a
`TxnNotFound` error carrying the transaction's `start_ts` and the raw primary
key; the error takes precedence over `resolving_pessimistic_lock` (the flag is
universally quantified here, so the error is returned even when it is true),
and the Transaction Context is unchanged: no mutation is enqueued. -/
theorem c6_missing_lock_txn_not_found (txn : MvccTxn) (primary_key : Key)
    (mismatch_lock : Option Lock) (rpl : Bool) (ow : Option Write) (raw : List Nat)
    (hrec : txn.get_txn_commit_record primary_key txn.start_ts
      = Except.ok (TxnCommitRecord.None ow))
    (hraw : primary_key.rawForm = some raw) :
    check_txn_status_missing_lock txn primary_key mismatch_lock
        MissingLockAction.ReturnError rpl
      = (txn, Except.error (MvccError.TxnNotFound txn.start_ts raw)) := by
  simp only [check_txn_status_missing_lock, hrec]
  simp [Key.into_raw, Key.to_raw, hraw]

/-- Witness for C6: with `resolving_pessimistic_lock = true`, the `TxnNotFound`
error (start_ts 7, raw key `[1]`) is still returned. -/
theorem c6_witness :
    check_txn_status_missing_lock txnW keyW none MissingLockAction.ReturnError true
      = (txnW, Except.error (MvccError.TxnNotFound 7 [1])) := by
  simpa using c6_missing_lock_txn_not_found txnW keyW none true none [1] rfl rfl

/-- C7: for every invocation of `check_txn_status_missing_lock` where no
commit record is found, the action is not `ReturnError`, and
`resolving_pessimistic_lock` is true, the result is `LockNotExistDoNothing`
and the Transaction Context is left unchanged: no rollback write is enqueued,
no previous rollback is collapsed, and no mismatching lock is marked. -/
theorem c7_missing_lock_pessimistic_noop (txn : MvccTxn) (primary_key : Key)
    (mismatch_lock : Option Lock) (action : MissingLockAction) (ow : Option Write)
    (hrec : txn.get_txn_commit_record primary_key txn.start_ts
      = Except.ok (TxnCommitRecord.None ow))
    (haction : action ≠ MissingLockAction.ReturnError) :
    check_txn_status_missing_lock txn primary_key mismatch_lock action true
      = (txn, Except.ok TxnStatus.LockNotExistDoNothing) := by
  simp only [check_txn_status_missing_lock, hrec]
  rw [if_neg haction]
  simp

/-- Witness for C7 with a mismatching lock supplied and collapsing enabled:
even so, nothing is enqueued. -/
theorem c7_witness :
    check_txn_status_missing_lock { txnW with collapse_rollback := true } keyW
        (some lockZero) MissingLockAction.ProtectedRollback true
      = ({ txnW with collapse_rollback := true },
         Except.ok TxnStatus.LockNotExistDoNothing) :=
  c7_missing_lock_pessimistic_noop { txnW with collapse_rollback := true } keyW
    (some lockZero) MissingLockAction.ProtectedRollback none rfl (by decide)

/-- C8: `check_data_constraint` fails, and fails with an `AlreadyExist` error
carrying the raw key, exactly when `should_not_exist` is true and either the
candidate write's kind is `Put`, or its kind is `Lock` or `Rollback` and the
key-existence lookup at `write_commit_ts.prev()` reports an older version
exists; in every other case (`should_not_exist` false, kind `Delete`, or
`Lock`/`Rollback` with no older version) it succeeds with `Ok(())`.  Stated
for a well-formed key and a key-existence lookup that answers `b` without a
storage error. -/
theorem c8_check_data_constraint_iff (txn : MvccTxn) (sne : Bool) (write : Write)
    (write_commit_ts : Nat) (key : Key) (raw : List Nat) (b : Bool)
    (hraw : key.rawForm = some raw)
    (hex : txn.key_exist key (TimeStamp.prev write_commit_ts) = Except.ok b) :
    (check_data_constraint txn sne write write_commit_ts key
        = Except.error (MvccError.AlreadyExist raw)
      ↔ (sne = true ∧ (write.write_type = WriteType.Put ∨
          ((write.write_type = WriteType.Lock ∨ write.write_type = WriteType.Rollback) ∧
            b = true)))) ∧
    (¬(sne = true ∧ (write.write_type = WriteType.Put ∨
          ((write.write_type = WriteType.Lock ∨ write.write_type = WriteType.Rollback) ∧
            b = true))) →
       check_data_constraint txn sne write write_commit_ts key = Except.ok ()) := by
  obtain ⟨wt, wts, wsv⟩ := write
  cases sne <;> cases wt <;> cases b <;>
    simp_all [check_data_constraint, Key.to_raw]

/-- Witness for C8: an insert-only write over a `Put` record fails with
`AlreadyExist [1]`. -/
theorem c8_witness :
    check_data_constraint txnW true writePut 5 keyW
      = Except.error (MvccError.AlreadyExist [1]) :=
  (c8_check_data_constraint_iff txnW true writePut 5 keyW [1] false rfl rfl).1.mpr
    ⟨rfl, Or.inl rfl⟩

end Tikv
